import Mathlib

deriving instance DecidableEq for Except

/-!
Verification of the ShareChat secure transport & storage codec.

This development shallowly embeds the server-side codec, authentication and
message pipeline of the repository (`backend/server.js`, `backend/crypto-utils.js`,
`models/Message.js`) and proves the specified properties about it.

External libraries (`pako` gzip, `cbor`, `bcryptjs`, `jsonwebtoken`, the node
`crypto` RSA layer, and Mongoose's schema casting) are modelled by executable
Lean functions that are faithful to the interface behaviour the server relies
on: gzip/CBOR are lossless self-describing byte wrappers that fail cleanly on
corrupt input, Mongoose casts a Buffer assigned to a `String`-typed schema path
with `Buffer.prototype.toString` (a lossy byte-to-character decode), and JWT
verification checks the signature before the expiry window.
-/

namespace ShareChat

/-- A byte of a Node `Buffer`/`Uint8Array`, modelled as a natural number. -/
abbrev Byte := Nat

/-- Model of UTF-8 encoding a JS string into bytes (`Buffer.from(s)`,
`pako.gzip(s)`'s implicit encoding): one code per character.  It is injective,
which is the only property of the real encoding the server relies on. -/
def utf8Bytes (s : String) : List Byte :=
  s.data.map Char.toNat

/-- Model of `Buffer.prototype.toString()` / pako's `{ to: 'string' }` decoding:
bytes back to a JS string.  Total (never throws), exactly like the real decoder,
which substitutes replacement characters instead of failing. -/
def bufferToString (bytes : List Byte) : String :=
  ⟨bytes.map Char.ofNat⟩

theorem bufferToString_utf8Bytes (s : String) : bufferToString (utf8Bytes s) = s := by
  show String.mk ((s.data.map Char.toNat).map Char.ofNat) = s
  rw [List.map_map]
  have : (Char.ofNat ∘ Char.toNat) = id := by
    funext c
    exact Char.ofNat_toNat c
  rw [this, List.map_id]

/-- The two magic bytes `0x1f 0x8b` that begin every real gzip stream; the
model keeps them so that a gzip envelope is self-describing. -/
def gzipMagic : List Byte := [31, 139]

/-- Model of `pako.gzip`: a lossless compressed wrapping of the input bytes.
Modelled as the gzip magic followed by the payload. -/
def gzip (bytes : List Byte) : List Byte :=
  gzipMagic ++ bytes

/-- Model of `pako.ungzip`: recovers the bytes wrapped by `gzip`, failing
(`none`, which the JS caller observes as a thrown error) on anything that is
not a gzip stream. -/
def ungzip (bytes : List Byte) : Option (List Byte) :=
  if bytes.take 2 = gzipMagic then some (bytes.drop 2) else none

theorem ungzip_gzip (bytes : List Byte) : ungzip (gzip bytes) = some bytes := by
  simp [ungzip, gzip, gzipMagic]

/-- The leading byte the model uses for a CBOR byte-string envelope
(`0x42` is a real CBOR major-type-2 header byte). -/
def cborByteStringTag : Byte := 66

/-- Model of `cbor.encode` applied to a byte buffer: a self-describing,
length-prefixed binary envelope around the bytes (spec glossary: Envelope). -/
def cborEncode (bytes : List Byte) : List Byte :=
  cborByteStringTag :: bytes.length :: bytes

/-- Model of `cbor.decode`: unwraps the envelope produced by `cborEncode`,
failing (`none` = thrown error in JS) on malformed input. -/
def cborDecode (bytes : List Byte) : Option (List Byte) :=
  match bytes with
  | t :: n :: rest =>
    if t = cborByteStringTag ∧ rest.length = n then some rest else none
  | _ => none

theorem cborDecode_cborEncode (bytes : List Byte) :
    cborDecode (cborEncode bytes) = some bytes := by
  simp [cborDecode, cborEncode]

/-! ## The text codec (`backend/server.js` lines 446-463) -/

/-- `compressText` from `backend/server.js`:
`if (!text) return null; return cbor.encode(pako.gzip(text));`.
The empty string is the only falsy JS string. -/
def compressText (text : String) : Option (List Byte) :=
  if text = "" then none
  else some (cborEncode (gzip (utf8Bytes text)))

/-- `decompressText` from `backend/server.js`:
`if (!compressed) return null;` then CBOR-decode, gzip-inflate to a string,
returning `null` if either step throws.  Total by construction. -/
def decompressText (compressed : Option (List Byte)) : Option String :=
  match compressed with
  | none => none
  | some bytes =>
    match cborDecode bytes with
    | none => none
    | some decoded =>
      match ungzip decoded with
      | none => none
      | some inflated => some (bufferToString inflated)

/-- The write-path encoding for binary attachments (image/file):
`cbor.encode(pako.gzip(buffer))` (`backend/server.js` lines 493-494, 503-504). -/
def encodeBinaryField (bytes : List Byte) : List Byte :=
  cborEncode (gzip bytes)

/-- The read-path decoding for binary attachments:
`pako.ungzip(cbor.decode(stored))` (`backend/server.js` lines 414-415),
`none` when either step throws. -/
def decodeBinaryField (stored : List Byte) : Option (List Byte) :=
  (cborDecode stored).bind ungzip

theorem decodeBinaryField_encodeBinaryField (bytes : List Byte) :
    decodeBinaryField (encodeBinaryField bytes) = some bytes := by
  simp [decodeBinaryField, encodeBinaryField, cborDecode_cborEncode, ungzip_gzip]

/-! ## Input handling (`backend/server.js` lines 99-120) -/

/-- Whether `sanitizeText`'s regular expression
`/[\x00-\x08\x0B\x0C\x0E-\x1F\x7F]/` removes the character: the C0 control
characters other than tab (9), newline (10) and carriage return (13),
plus DEL (127). -/
def isRemovedControl (c : Char) : Bool :=
  c.toNat ≤ 8 ∨ c.toNat = 11 ∨ c.toNat = 12 ∨
  (14 ≤ c.toNat ∧ c.toNat ≤ 31) ∨ c.toNat = 127

/-- `sanitizeText` from `backend/server.js`: strips the control characters
matched by its regex (a non-string or empty input yields `''`, which on
strings coincides with the filter). -/
def sanitizeText (text : String) : String :=
  ⟨text.data.filter (fun c => !isRemovedControl c)⟩

/-- `validateTextInput` from `backend/server.js`: empty text is valid,
text longer than 100000 characters is rejected. -/
def validateTextInput (text : String) : Bool :=
  if text = "" then true
  else decide (text.length ≤ 100000)

/-- The characters JS `String.prototype.trim` removes (WhiteSpace and
LineTerminator code points; the uncommon Unicode spaces are elided). -/
def isJsWhitespace (c : Char) : Bool :=
  c = ' ' ∨ c = '\t' ∨ c = '\n' ∨ c = '\r' ∨
  c.toNat = 11 ∨ c.toNat = 12 ∨ c.toNat = 160 ∨ c.toNat = 65279

/-- Model of JS `text.trim()`. -/
def jsTrim (s : String) : String :=
  ⟨((s.data.dropWhile isJsWhitespace).reverse.dropWhile isJsWhitespace).reverse⟩

/-! ## The message data model (`models/Message.js`, `backend/server.js`) -/

/-- The runtime value held by a message's `text` field: the explicit
polymorphic union the server discriminates with `typeof msg.text === 'string'`
— either a raw JS string or a compressed binary `Buffer`. -/
inductive TextField where
  | raw : String → TextField
  | buf : List Byte → TextField
deriving DecidableEq

/-- The `typeof msg.text === 'string'` discriminator used at every read site. -/
def TextField.isStringForm : TextField → Bool
  | .raw _ => true
  | .buf _ => false

/-- A persisted message document (`models/Message.js` schema fields the server
reads and writes; `_id` and query mechanics are out of scope).  `none` models
an absent (`undefined`) field. -/
structure StoredMessage where
  text : Option TextField
  imageData : Option (List Byte)
  imageMimeType : Option String
  fileData : Option (List Byte)
  fileName : Option String
  fileMimeType : Option String
  fileSize : Option Nat
  timestamp : Nat
  edited : Bool
  editedAt : Option Nat
deriving DecidableEq

/-- A message object as built for the JSON response of the listing route
(`backend/server.js` lines 402-430).  The `text` key is always assigned
(possibly JS `null` = `none`), whereas the `imageData`/`imageMimeType` keys
are added only when the image decodes, and `fileData` is never included
(only its metadata is). -/
structure ResponseMessage where
  text : Option String
  timestamp : Nat
  edited : Bool
  editedAt : Option Nat
  imageData : Option (List Byte)
  imageMimeType : Option String
  fileName : Option String
  fileMimeType : Option String
  fileSize : Option Nat
deriving DecidableEq

/-- The `text` entry of a listed message:
`typeof msg.text === 'string' ? msg.text : decompressText(msg.text)`. -/
def decodeStoredText : Option TextField → Option String
  | some (.raw s) => some s
  | some (.buf b) => decompressText (some b)
  | none => decompressText none

/-- One message through the read path of `GET /api/messages`
(`backend/server.js` lines 402-430): decode the text, attempt to decode the
image (omitting `imageData`/`imageMimeType` when CBOR or gzip throws), and
copy the file metadata when a file attachment is present.  The response
carries the decompressed image bytes; their further base64 transport encoding
is elided. -/
def decodeMessage (msg : StoredMessage) : ResponseMessage :=
  let base : ResponseMessage :=
    { text := decodeStoredText msg.text
      timestamp := msg.timestamp
      edited := msg.edited
      editedAt := msg.editedAt
      imageData := none
      imageMimeType := none
      fileName := none
      fileMimeType := none
      fileSize := none }
  let withImage :=
    match msg.imageData with
    | none => base
    | some stored =>
      match decodeBinaryField stored with
      | some bytes => { base with imageData := some bytes, imageMimeType := msg.imageMimeType }
      | none => base
  match msg.fileData with
  | none => withImage
  | some _ =>
    { withImage with
        fileName := msg.fileName
        fileMimeType := msg.fileMimeType
        fileSize := msg.fileSize }

/-- The listing route's decode of a query result
(`const decodedMessages = messages.map(msg => ...)`). -/
def decodedMessages (msgs : List StoredMessage) : List ResponseMessage :=
  msgs.map decodeMessage

/-! ## The write paths (`backend/server.js` lines 470-487 and 551-572) -/

/-- Lift the nullable result of `compressText` into the `text` field:
`messageData.text = compressText(sanitizedText)` stores `null` when
`compressText` returns `null` and a `Buffer` otherwise. -/
def bufField : Option (List Byte) → Option TextField
  | none => none
  | some b => some (.buf b)

/-- The text encoding performed by `POST /api/messages`
(lines 481-486): assign the sanitized string, then overwrite it with the
compressed form when its length exceeds 100 characters. -/
def postEncodeText (sanitizedText : String) : Option TextField :=
  let assigned : Option TextField := some (.raw sanitizedText)
  if sanitizedText.length > 100 then bufField (compressText sanitizedText)
  else assigned

/-- The text encoding performed by `PUT /api/messages/:id` (line 569):
`sanitizedText.length > 100 ? compressText(sanitizedText) : sanitizedText`. -/
def putEncodeText (sanitizedText : String) : Option TextField :=
  if sanitizedText.length > 100 then bufField (compressText sanitizedText)
  else some (.raw sanitizedText)

/-- Mongoose's cast of a value assigned to the `String`-typed schema path
`text` (`models/Message.js`): a string passes through, while a `Buffer` is
converted with `Buffer.prototype.toString()` — a lossy byte-to-character
decode, not an error. -/
def castStringPath : TextField → String
  | .raw s => s
  | .buf b => bufferToString b

/-- What the document store holds in `text` after
`new Message(messageData)` / `message.save()`: every value has been cast
through the `String`-typed schema path. -/
def persistText (t : Option TextField) : Option TextField :=
  t.map (fun tf => .raw (castStringPath tf))

/-- The text handling of `POST /api/messages` (lines 474-487), up to the
document save: no `text` key when the submission is empty or all-whitespace,
a 400 error when validation rejects it, otherwise the sanitized text run
through the threshold-and-compression pipeline. -/
def postMessageText (text : String) : Except String (Option TextField) :=
  if text = "" ∨ jsTrim text = "" then .ok none
  else if validateTextInput text = false then .error "Text message is too long"
  else .ok (postEncodeText (sanitizeText text))

/-- The stored `text` field after a successful `POST /api/messages` with the
given submission: the pipeline result cast by the Mongoose schema. -/
def storedTextAfterPost (text : String) : Except String (Option TextField) :=
  (postMessageText text).map persistText

/-- The `text` value a subsequent listing returns for a message created with
the given submission: write, persist through the schema cast, read back. -/
def readTextAfterPost (text : String) : Except String (Option String) :=
  (storedTextAfterPost text).map decodeStoredText

/-- The edit route `PUT /api/messages/:id` (lines 551-574), from the loaded
document to the saved one: when the new text is non-empty after trimming and
passes validation, the `text` field is re-encoded fresh from the sanitized
submission and `edited`/`editedAt` are set; otherwise the document is saved
unchanged.  `now` is the clock value taken for `new Date()`. -/
def editMessage (msg : StoredMessage) (text : String) (now : Nat) :
    Except String StoredMessage :=
  if text = "" ∨ jsTrim text = "" then .ok msg
  else if validateTextInput text = false then .error "Text message is too long"
  else .ok { msg with
               text := persistText (putEncodeText (sanitizeText text))
               edited := true
               editedAt := some now }

/-! ## Secret verification (`backend/server.js` lines 86-97) -/

/-- Model of JS `s.startsWith(p)`, computed on the character lists. -/
def strStartsWith (s p : String) : Bool :=
  s.data.take p.data.length == p.data

/-- The structural classification in `comparePassword`: a stored secret is
treated as a bcrypt hash iff it starts with `$2a$`, `$2b$` or `$2y$`. -/
def isBcryptHash (stored : String) : Bool :=
  strStartsWith stored "$2a$" ∨ strStartsWith stored "$2b$" ∨ strStartsWith stored "$2y$"

/-- The outcome of `comparePassword`: the boolean match result together with
whether the legacy plain-text warning was logged on this call. -/
structure CompareOutcome where
  result : Bool
  plainWarning : Bool
deriving DecidableEq

/-- `comparePassword` from `backend/server.js`: bcrypt comparison when the
stored secret carries a bcrypt structural marker, otherwise direct string
equality with a warning logged on every use of that path.  The one-way
bcrypt verifier itself (external `bcryptjs`) is passed in as `bcryptCompare`.
Total: a non-match is a `false` result, never a thrown error. -/
def comparePassword (bcryptCompare : String → String → Bool)
    (inputPassword storedPassword : String) : CompareOutcome :=
  if isBcryptHash storedPassword then
    { result := bcryptCompare inputPassword storedPassword, plainWarning := false }
  else
    { result := inputPassword == storedPassword, plainWarning := true }

/-! ## The RSA credential cipher (`backend/crypto-utils.js`) -/

/-- Model of an RSA-OAEP ciphertext as handled by `crypto-utils.js`: a value
produced by `encryptWithPublicKey` records which key pair's public key was
used (key pairs are named by a `Nat` identifier) and the encrypted payload
bytes; anything else presented to the decryptor is malformed input. -/
inductive Ciphertext where
  | sealedUnder : Nat → List Byte → Ciphertext
  | malformed : Ciphertext
deriving DecidableEq

/-- The two failure classes `crypto.privateDecrypt` raises, which callers can
tell apart: an OAEP decoding failure (ciphertext from a different key pair)
and a data format failure (input that is not an RSA block at all). -/
inductive DecryptError where
  | keyMismatch
  | formatError
deriving DecidableEq

/-- `encryptWithPublicKey` from `backend/crypto-utils.js`: OAEP-encrypt the
UTF-8 credential under the public half of key pair `keyId`. -/
def encryptWithPublicKey (data : String) (keyId : Nat) : Ciphertext :=
  .sealedUnder keyId (utf8Bytes data)

/-- `decryptWithPrivateKey` from `backend/crypto-utils.js`: decrypt with the
private half of key pair `privKeyId`.  A ciphertext sealed under a different
key pair fails OAEP decoding (`keyMismatch`), malformed input fails parsing
(`formatError`), and a matching key pair recovers the UTF-8 plaintext. -/
def decryptWithPrivateKey : Ciphertext → Nat → Except DecryptError String
  | .malformed, _ => .error .formatError
  | .sealedUnder keyId payload, privKeyId =>
    if keyId = privKeyId then .ok (bufferToString payload)
    else .error .keyMismatch

/-- The outcome classes of the hardened authentication endpoint. -/
inductive AuthResult where
  | issuedToken : String → AuthResult
  | failDecrypt
  | failCredential
  | failExpiredPolicy
deriving DecidableEq

/-- Modelled from the spec: the RSA-enabled `/api/auth` endpoint is absent
from the source tree (only `crypto-utils.js`, its test scripts and the
frontend caller are present).  Per spec sections 6 and 7 the endpoint
decrypts the submitted credential with the process private key, surfacing any
decryption failure as the distinct `decryption-failed` kind before the secret
is ever compared, and only a successfully decrypted credential can yield the
`invalid-credential` kind. -/
def authenticate (privKeyId : Nat) (storedSecret : String)
    (enc : Ciphertext) : AuthResult :=
  match decryptWithPrivateKey enc privKeyId with
  | .error _ => .failDecrypt
  | .ok plaintext =>
    if plaintext = storedSecret then .issuedToken plaintext else .failCredential

/-! ## Session tokens (`backend/server.js` lines 129-155) -/

/-- The JWT claims `generateToken` signs: `{ authenticated: true, iat }`. -/
structure TokenPayload where
  authenticated : Bool
  iat : Nat
deriving DecidableEq

/-- Model of the HMAC the `jsonwebtoken` library computes over the encoded
payload with the server secret. -/
def jwtMac (secret : String) (p : TokenPayload) : Nat :=
  ((utf8Bytes secret).foldl (fun h b => h * 31 + b + 1) 7) * 2 ^ 20
    + p.iat * 2 + (if p.authenticated then 1 else 0)

/-- A signed token: payload plus signature. -/
structure Jwt where
  payload : TokenPayload
  sig : Nat
deriving DecidableEq

/-- The two failure classes of `jwt.verify`: `TokenExpiredError` and the
generic `JsonWebTokenError` for a signature that does not verify. -/
inductive JwtError where
  | expired
  | invalidSignature
deriving DecidableEq

/-- Model of `jwt.verify(token, secret)` with an `expiresIn` window of `ttl`
seconds: the signature is checked first; a token with a valid signature whose
expiry time `iat + ttl` is not after `now` raises `TokenExpiredError`. -/
def jwtVerify (secret : String) (ttl now : Nat) (t : Jwt) :
    Except JwtError TokenPayload :=
  if t.sig ≠ jwtMac secret t.payload then .error .invalidSignature
  else if t.payload.iat + ttl ≤ now then .error .expired
  else .ok t.payload

/-- `generateToken` from `backend/server.js`: sign
`{ authenticated: true, iat: now }` with the server secret. -/
def generateToken (secret : String) (now : Nat) : Jwt :=
  { payload := { authenticated := true, iat := now }
    sig := jwtMac secret { authenticated := true, iat := now } }

/-- What the `verifyToken` middleware does with a request: reject it with an
HTTP status and message, or call `next()`. -/
inductive AuthOutcome where
  | noToken
  | expiredToken
  | invalidToken
  | proceed
deriving DecidableEq

/-- The HTTP status `verifyToken` responds with (`none` = `next()` called). -/
def authStatus : AuthOutcome → Option Nat
  | .noToken => some 401
  | .expiredToken => some 401
  | .invalidToken => some 403
  | .proceed => none

/-- The response message `verifyToken` sends (`none` = `next()` called). -/
def authMessage : AuthOutcome → Option String
  | .noToken => some "Access denied. No token provided."
  | .expiredToken => some "Token expired. Please login again."
  | .invalidToken => some "Invalid token."
  | .proceed => none

/-- `verifyToken` from `backend/server.js` (lines 138-155): 401 when no
bearer token is presented; otherwise `jwt.verify`, mapping
`TokenExpiredError` to 401 `Token expired. Please login again.` and every
other verification error to 403 `Invalid token.`. -/
def verifyToken (secret : String) (ttl now : Nat) : Option Jwt → AuthOutcome
  | none => .noToken
  | some t =>
    match jwtVerify secret ttl now t with
    | .ok _ => .proceed
    | .error .expired => .expiredToken
    | .error .invalidSignature => .invalidToken

/-! ## Helper lemmas -/

theorem ne_empty_of_length_pos {s : String} (h : 0 < s.length) : s ≠ "" := by
  intro he
  subst he
  simp at h

/-- A 101-character string such as `"a".repeat(101)`. -/
def aRepeat (n : Nat) : String := ⟨List.replicate n 'a'⟩

theorem compressText_of_ne_empty {s : String} (h : s ≠ "") :
    compressText s = some (cborEncode (gzip (utf8Bytes s))) := by
  simp [compressText, h]

theorem decompressText_compressText {s : String} (h : s ≠ "") :
    decompressText (compressText s) = some s := by
  rw [compressText_of_ne_empty h]
  simp [decompressText, cborDecode_cborEncode, ungzip_gzip, bufferToString_utf8Bytes]

theorem postEncodeText_le {s : String} (h : s.length ≤ 100) :
    postEncodeText s = some (.raw s) := by
  simp [postEncodeText, Nat.not_lt.mpr h]

theorem postEncodeText_gt {s : String} (h : 100 < s.length) :
    postEncodeText s = some (.buf (cborEncode (gzip (utf8Bytes s)))) := by
  have hne : s ≠ "" := ne_empty_of_length_pos (Nat.lt_of_le_of_lt (Nat.zero_le _) h)
  simp [postEncodeText, h, bufField, compressText_of_ne_empty hne]

theorem putEncodeText_eq_postEncodeText (s : String) :
    putEncodeText s = postEncodeText s := by
  by_cases h : 100 < s.length
  · have hne : s ≠ "" := ne_empty_of_length_pos (Nat.lt_of_le_of_lt (Nat.zero_le _) h)
    simp [putEncodeText, postEncodeText, h]
  · simp [putEncodeText, postEncodeText, h]

theorem decodeMessage_corrupt_image {msg : StoredMessage} {corrupt : List Byte}
    (h1 : msg.imageData = some corrupt) (h2 : decodeBinaryField corrupt = none) :
    (decodeMessage msg).imageData = none ∧
    (decodeMessage msg).imageMimeType = none ∧
    (decodeMessage msg).text = decodeStoredText msg.text ∧
    (decodeMessage msg).timestamp = msg.timestamp ∧
    (decodeMessage msg).edited = msg.edited ∧
    (decodeMessage msg).editedAt = msg.editedAt := by
  cases hfd : msg.fileData <;> simp [decodeMessage, h1, h2, hfd]

theorem decodeMessage_intact_image {msg : StoredMessage} {payload : List Byte}
    (h1 : msg.imageData = some (encodeBinaryField payload)) :
    (decodeMessage msg).imageData = some payload ∧
    (decodeMessage msg).imageMimeType = msg.imageMimeType ∧
    (decodeMessage msg).text = decodeStoredText msg.text ∧
    (decodeMessage msg).timestamp = msg.timestamp := by
  cases hfd : msg.fileData <;>
    simp [decodeMessage, h1, decodeBinaryField_encodeBinaryField, hfd]

/-! ## Claims -/

/-- Claim C1: for every non-empty text string `T`, decoding the encoded form
returns `T` exactly (`decompressText(compressText(T)) == T`), and the same
gzip-then-CBOR round trip is lossless for arbitrary binary payloads. -/
theorem c1_codec_roundtrip :
    (∀ t : String, t ≠ "" → decompressText (compressText t) = some t) ∧
    (∀ payload : List Byte,
      decodeBinaryField (encodeBinaryField payload) = some payload) :=
  ⟨fun _ ht => decompressText_compressText ht,
   fun payload => decodeBinaryField_encodeBinaryField payload⟩

/-- Witness for C1 at a concrete text and a concrete binary payload. -/
theorem c1_codec_roundtrip_witness :
    decompressText (compressText "hello") = some "hello" ∧
    decodeBinaryField (encodeBinaryField [0, 255, 31]) = some [0, 255, 31] :=
  ⟨c1_codec_roundtrip.1 "hello" (by decide),
   c1_codec_roundtrip.2 [0, 255, 31]⟩

/-- Claim C2 (code bug): storing `"a".repeat(101)` does run the compression
pipeline and produce a `Buffer`, but the `String`-typed schema path of
`models/Message.js` casts that `Buffer` to a lossy string on save, so the
stored representation is a string — not binary — and the listing's decode
path returns the mangled envelope text, never the original 101 characters. -/
theorem c2_threshold_storage_roundtrip_fails :
    postMessageText (aRepeat 101)
      = .ok (some (.buf (cborEncode (gzip (utf8Bytes (aRepeat 101)))))) ∧
    storedTextAfterPost (aRepeat 101)
      = .ok (some (.raw (bufferToString (cborEncode (gzip (utf8Bytes (aRepeat 101))))))) ∧
    (TextField.raw (bufferToString (cborEncode (gzip (utf8Bytes (aRepeat 101)))))).isStringForm
      = true ∧
    readTextAfterPost (aRepeat 101)
      = .ok (some (bufferToString (cborEncode (gzip (utf8Bytes (aRepeat 101)))))) ∧
    readTextAfterPost (aRepeat 101) ≠ .ok (some (aRepeat 101)) := by
  refine ⟨by decide, by decide, by decide, by decide, by decide⟩

/-- A string of `n` repeated `'c'`s, for the C3 boundary pair. -/
def cRepeat (n : Nat) : String := ⟨List.replicate n 'c'⟩

/-- Claim C3 (code bug): both write paths do apply the strict `> 100`
boundary — at 100 characters the pipeline produces the raw string, at 101 the
compressed `Buffer`, the runtime representations of those pipeline values
differ, and the edit path's encoding equals the create path's — but the
`String`-typed schema path casts the `Buffer` on save, so the 101-character
text is NOT stored in a compressed binary representation: both stored forms
are strings and the stored forms' runtime-type discriminator never differs,
contrary to the claim.  Evaluated at the boundary pair `"c".repeat(100)` /
`"c".repeat(101)`. -/
theorem c3_threshold_stored_forms_collapse :
    postEncodeText (cRepeat 100) = some (.raw (cRepeat 100)) ∧
    postEncodeText (cRepeat 101)
      = some (.buf (cborEncode (gzip (utf8Bytes (cRepeat 101))))) ∧
    (∀ s : String, putEncodeText s = postEncodeText s) ∧
    (TextField.raw (cRepeat 100)).isStringForm
      ≠ (TextField.buf (cborEncode (gzip (utf8Bytes (cRepeat 101))))).isStringForm ∧
    storedTextAfterPost (cRepeat 100) = .ok (some (.raw (cRepeat 100))) ∧
    storedTextAfterPost (cRepeat 101)
      = .ok (some (.raw (bufferToString (cborEncode (gzip (utf8Bytes (cRepeat 101))))))) ∧
    (TextField.raw (cRepeat 100)).isStringForm
      = (TextField.raw (bufferToString
          (cborEncode (gzip (utf8Bytes (cRepeat 101)))))).isStringForm := by
  refine ⟨by decide, by decide, putEncodeText_eq_postEncodeText,
    by decide, by decide, by decide, by decide⟩

/-- Claim C4: when one message in a stored batch carries a corrupted binary
attachment (its CBOR decode or gzip inflate fails), the listing still returns
every message: the corrupted field and its mime type are omitted from that
one response object, all of that message's other fields and every other
message (in particular any with a well-formed attachment) are served intact,
and the failure never aborts the listing. -/
theorem c4_corruption_containment (msgs : List StoredMessage) (j : Nat)
    (hj : j < msgs.length) (corrupt : List Byte)
    (hbad : (msgs.get ⟨j, hj⟩).imageData = some corrupt)
    (hfail : decodeBinaryField corrupt = none) :
    (decodedMessages msgs).length = msgs.length ∧
    (∀ i : Nat, ∀ hi : i < msgs.length,
      (decodedMessages msgs)[i]? = some (decodeMessage (msgs.get ⟨i, hi⟩))) ∧
    ((decodeMessage (msgs.get ⟨j, hj⟩)).imageData = none ∧
     (decodeMessage (msgs.get ⟨j, hj⟩)).imageMimeType = none ∧
     (decodeMessage (msgs.get ⟨j, hj⟩)).text
       = decodeStoredText (msgs.get ⟨j, hj⟩).text ∧
     (decodeMessage (msgs.get ⟨j, hj⟩)).timestamp = (msgs.get ⟨j, hj⟩).timestamp ∧
     (decodeMessage (msgs.get ⟨j, hj⟩)).edited = (msgs.get ⟨j, hj⟩).edited ∧
     (decodeMessage (msgs.get ⟨j, hj⟩)).editedAt = (msgs.get ⟨j, hj⟩).editedAt) ∧
    (∀ i : Nat, ∀ hi : i < msgs.length, ∀ payload : List Byte,
      (msgs.get ⟨i, hi⟩).imageData = some (encodeBinaryField payload) →
      (decodeMessage (msgs.get ⟨i, hi⟩)).imageData = some payload ∧
      (decodeMessage (msgs.get ⟨i, hi⟩)).imageMimeType
        = (msgs.get ⟨i, hi⟩).imageMimeType ∧
      (decodeMessage (msgs.get ⟨i, hi⟩)).text
        = decodeStoredText (msgs.get ⟨i, hi⟩).text) := by
  refine ⟨by simp [decodedMessages], ?_, decodeMessage_corrupt_image hbad hfail, ?_⟩
  · intro i hi
    simp [decodedMessages, List.getElem?_eq_getElem (by simpa using hi),
      List.get_eq_getElem]
  · intro i hi payload hgood
    exact ⟨(decodeMessage_intact_image hgood).1,
      (decodeMessage_intact_image hgood).2.1,
      (decodeMessage_intact_image hgood).2.2.1⟩

/-- A stored message with a well-formed image attachment, for the C4 witness. -/
def c4GoodMsg : StoredMessage :=
  { text := some (.raw "hi")
    imageData := some (encodeBinaryField [1, 2, 3])
    imageMimeType := some "image/png"
    fileData := none
    fileName := none
    fileMimeType := none
    fileSize := none
    timestamp := 1
    edited := false
    editedAt := none }

/-- A stored message whose image attachment is corrupt (not a CBOR envelope),
for the C4 witness. -/
def c4BadMsg : StoredMessage :=
  { text := some (.raw "yo")
    imageData := some [9]
    imageMimeType := some "image/png"
    fileData := none
    fileName := none
    fileMimeType := none
    fileSize := none
    timestamp := 2
    edited := false
    editedAt := none }

/-- Witness for C4 on a concrete two-message batch with one corrupt image:
both messages are listed, the corrupt one without its image field but with
its text, the intact one in full. -/
theorem c4_corruption_containment_witness :
    (decodedMessages [c4GoodMsg, c4BadMsg]).length = 2 ∧
    (decodeMessage ([c4GoodMsg, c4BadMsg].get ⟨1, by decide⟩)).imageData = none ∧
    (decodeMessage ([c4GoodMsg, c4BadMsg].get ⟨1, by decide⟩)).text = some "yo" ∧
    (decodeMessage ([c4GoodMsg, c4BadMsg].get ⟨0, by decide⟩)).imageData
      = some [1, 2, 3] := by
  have h := c4_corruption_containment [c4GoodMsg, c4BadMsg] 1 (by decide) [9]
    (by decide) (by decide)
  refine ⟨h.1, h.2.2.1.1, ?_, (h.2.2.2 0 (by decide) [1, 2, 3] (by decide)).1⟩
  exact h.2.2.1.2.2.1.trans (by decide)

/-- Claim C5: the verifier classifies the stored secret by structural prefix —
a secret starting with `$2a$`, `$2b$` or `$2y$` goes to the one-way bcrypt
comparison, anything else to direct string equality with a warning emitted on
every use of that path — so a legacy plaintext secret verifies true exactly
against the matching credential, and the comparison is a total boolean-valued
function (a non-match is `false`, not an exception). -/
theorem c5_secret_verifier (bcryptCompare : String → String → Bool)
    (input stored : String) :
    (isBcryptHash stored = true →
      comparePassword bcryptCompare input stored
        = { result := bcryptCompare input stored, plainWarning := false }) ∧
    (isBcryptHash stored = false →
      comparePassword bcryptCompare input stored
        = { result := input == stored, plainWarning := true }) ∧
    (isBcryptHash stored = false →
      ((comparePassword bcryptCompare input stored).result = true ↔ input = stored)) := by
  refine ⟨fun h => by simp [comparePassword, h],
          fun h => by simp [comparePassword, h],
          fun h => by simp [comparePassword, h]⟩

/-- Witness for C5: a legacy plaintext stored secret verifies true against the
matching credential (warning emitted) and false against another, and a
bcrypt-prefixed secret is routed to the bcrypt comparison without a warning. -/
theorem c5_secret_verifier_witness :
    comparePassword (fun _ _ => false) "letmein" "letmein"
      = { result := true, plainWarning := true } ∧
    comparePassword (fun _ _ => false) "other" "letmein"
      = { result := false, plainWarning := true } ∧
    comparePassword (fun _ _ => true) "pw" "$2b$10$hash"
      = { result := true, plainWarning := false } := by
  refine ⟨?_, ?_, ?_⟩
  · have h := (c5_secret_verifier (fun _ _ => false) "letmein" "letmein").2.1 (by decide)
    simpa using h
  · have h := (c5_secret_verifier (fun _ _ => false) "other" "letmein").2.1 (by decide)
    simpa using h
  · have h := (c5_secret_verifier (fun _ _ => true) "pw" "$2b$10$hash").1 (by decide)
    simpa using h

/-- Claim C6: a credential encrypted under key pair A and decrypted with the
private key of a different key pair B always fails with the key-mismatch
error — a kind distinct from both the wrong-credential outcome and the
malformed-input format error — so the caller observes a decryption failure
and never a false "wrong credential"; decrypting with A's own private key
returns the original plaintext. -/
theorem c6_key_mismatch_isolation (keyA keyB : Nat)
    (credential storedSecret : String) (hAB : keyA ≠ keyB) :
    decryptWithPrivateKey (encryptWithPublicKey credential keyA) keyB
      = .error .keyMismatch ∧
    DecryptError.keyMismatch ≠ DecryptError.formatError ∧
    authenticate keyB storedSecret (encryptWithPublicKey credential keyA)
      = .failDecrypt ∧
    AuthResult.failDecrypt ≠ AuthResult.failCredential ∧
    decryptWithPrivateKey (encryptWithPublicKey credential keyA) keyA
      = .ok credential := by
  refine ⟨?_, by decide, ?_, by decide, ?_⟩
  · simp [decryptWithPrivateKey, encryptWithPublicKey, hAB]
  · simp [authenticate, decryptWithPrivateKey, encryptWithPublicKey, hAB]
  · simp [decryptWithPrivateKey, encryptWithPublicKey, bufferToString_utf8Bytes]

/-- Witness for C6 with two concrete key pairs. -/
theorem c6_key_mismatch_isolation_witness :
    decryptWithPrivateKey (encryptWithPublicKey "pw" 0) 1
      = .error .keyMismatch ∧
    authenticate 1 "secret" (encryptWithPublicKey "pw" 0) = .failDecrypt ∧
    decryptWithPrivateKey (encryptWithPublicKey "pw" 0) 0 = .ok "pw" := by
  have h := c6_key_mismatch_isolation 0 1 "pw" "secret" (by decide)
  exact ⟨h.1, h.2.2.1, h.2.2.2.2⟩

/-- Claim C7: token verification keeps its two failure modes apart — a token
with a valid signature whose age exceeds the TTL is rejected as expired
(HTTP 401, expired message), a token whose signature does not verify is
rejected as invalid (HTTP 403, invalid message), a fresh validly-signed token
passes — and the two failure kinds are never collapsed into one. -/
theorem c7_token_failure_modes (secret : String) (ttl iat now : Nat) :
    (now < iat + ttl →
      verifyToken secret ttl now (some (generateToken secret iat)) = .proceed) ∧
    (iat + ttl ≤ now →
      verifyToken secret ttl now (some (generateToken secret iat)) = .expiredToken ∧
      authStatus .expiredToken = some 401 ∧
      authMessage .expiredToken = some "Token expired. Please login again.") ∧
    (∀ p : TokenPayload, ∀ sig : Nat, sig ≠ jwtMac secret p →
      verifyToken secret ttl now (some { payload := p, sig := sig }) = .invalidToken ∧
      authStatus .invalidToken = some 403 ∧
      authMessage .invalidToken = some "Invalid token.") ∧
    AuthOutcome.expiredToken ≠ AuthOutcome.invalidToken ∧
    authStatus .expiredToken ≠ authStatus .invalidToken := by
  refine ⟨?_, ?_, ?_, by decide, by decide⟩
  · intro h
    simp [verifyToken, jwtVerify, generateToken, Nat.not_le.mpr h]
  · intro h
    exact ⟨by simp [verifyToken, jwtVerify, generateToken, h], by decide, by decide⟩
  · intro p sig h
    exact ⟨by simp [verifyToken, jwtVerify, h], by decide, by decide⟩

/-- Witness for C7: with a 10-second TTL, a token issued at time 0 passes at
time 5, is expired at time 11 (TTL + 1s old), and the same token with its
signature perturbed is invalid, not expired. -/
theorem c7_token_failure_modes_witness :
    verifyToken "s" 10 5 (some (generateToken "s" 0)) = .proceed ∧
    verifyToken "s" 10 11 (some (generateToken "s" 0)) = .expiredToken ∧
    verifyToken "s" 10 5
      (some { payload := { authenticated := true, iat := 0 }
              sig := jwtMac "s" { authenticated := true, iat := 0 } + 1 })
      = .invalidToken := by
  refine ⟨(c7_token_failure_modes "s" 10 0 5).1 (by omega),
          ((c7_token_failure_modes "s" 10 0 11).2.1 (by omega)).1,
          ((c7_token_failure_modes "s" 10 0 5).2.2.1
            { authenticated := true, iat := 0 } _ (by omega)).1⟩

/-- Claim C8: an edit mutates only the text field — re-encoded fresh from the
sanitized new text through the same threshold-and-compression pipeline,
independently of the old stored form — plus the `edited` flag and the
`editedAt` timestamp; the binary attachment fields and the creation timestamp
survive every edit unchanged (including the no-op save when the submitted
text is empty or all whitespace). -/
theorem c8_edit_frame (msg : StoredMessage) (text : String) (now : Nat)
    (msg' : StoredMessage) (h : editMessage msg text now = .ok msg') :
    msg'.imageData = msg.imageData ∧
    msg'.imageMimeType = msg.imageMimeType ∧
    msg'.fileData = msg.fileData ∧
    msg'.fileName = msg.fileName ∧
    msg'.fileMimeType = msg.fileMimeType ∧
    msg'.fileSize = msg.fileSize ∧
    msg'.timestamp = msg.timestamp ∧
    (¬ (text = "" ∨ jsTrim text = "") →
      msg'.text = persistText (putEncodeText (sanitizeText text)) ∧
      msg'.edited = true ∧
      msg'.editedAt = some now) ∧
    ((text = "" ∨ jsTrim text = "") → msg' = msg) := by
  by_cases hempty : text = "" ∨ jsTrim text = ""
  · rw [editMessage, if_pos hempty] at h
    cases h
    simp [hempty]
  · rw [editMessage, if_neg hempty] at h
    by_cases hval : validateTextInput text = false
    · rw [if_pos hval] at h
      cases h
    · rw [if_neg hval] at h
      cases h
      simp [hempty]

/-- A stored message with both attachments, for the C8 witness. -/
def c8Msg : StoredMessage :=
  { text := some (.raw "old text")
    imageData := some (encodeBinaryField [7, 7])
    imageMimeType := some "image/jpeg"
    fileData := some (encodeBinaryField [1])
    fileName := some "notes.txt"
    fileMimeType := some "text/plain"
    fileSize := some 1
    timestamp := 42
    edited := false
    editedAt := none }

/-- Witness for C8: editing the concrete message to the text `"hello"` leaves
every attachment field and the creation timestamp untouched while replacing
the text and setting the edit markers. -/
theorem c8_edit_frame_witness :
    editMessage c8Msg "hello" 7
      = .ok { c8Msg with text := some (.raw "hello"), edited := true,
                         editedAt := some 7 } ∧
    ({ c8Msg with text := some (.raw "hello"), edited := true,
                  editedAt := some 7 } : StoredMessage).imageData
      = c8Msg.imageData ∧
    ({ c8Msg with text := some (.raw "hello"), edited := true,
                  editedAt := some 7 } : StoredMessage).timestamp
      = c8Msg.timestamp := by
  have h := c8_edit_frame c8Msg "hello" 7
    { c8Msg with text := some (.raw "hello"), edited := true, editedAt := some 7 }
    (by decide)
  exact ⟨by decide, h.1, h.2.2.2.2.2.2.1⟩

/-- Claim C9 (code bug): the text entering the codec is indeed the sanitized
submission, but for sanitized text longer than 100 characters the compressed
`Buffer` is cast to a string by the `String`-typed schema path, so the
write-then-read round trip returns the mangled envelope text instead of
`sanitizeText(input)` and the stored text does contain the control characters
sanitization removes (the gzip header byte `0x1f` among them).  Evaluated at
the submission of 101 `'b'`s followed by a null byte. -/
theorem c9_sanitized_storage_invariant_fails :
    sanitizeText (String.mk (List.replicate 101 'b' ++ ['\x00']))
      = String.mk (List.replicate 101 'b') ∧
    postMessageText (String.mk (List.replicate 101 'b' ++ ['\x00']))
      = .ok (postEncodeText (sanitizeText (String.mk (List.replicate 101 'b' ++ ['\x00'])))) ∧
    readTextAfterPost (String.mk (List.replicate 101 'b' ++ ['\x00']))
      = .ok (some (bufferToString
          (cborEncode (gzip (utf8Bytes (String.mk (List.replicate 101 'b'))))))) ∧
    readTextAfterPost (String.mk (List.replicate 101 'b' ++ ['\x00']))
      ≠ .ok (some (sanitizeText (String.mk (List.replicate 101 'b' ++ ['\x00'])))) ∧
    ((bufferToString
        (cborEncode (gzip (utf8Bytes (String.mk (List.replicate 101 'b')))))).data.any
      isRemovedControl) = true := by
  refine ⟨by decide, by decide, by decide, by decide, by decide⟩

/-- Claim C10: `decompressText` is total — `null` in gives `null` out, and any
CBOR-decode or gzip-inflate failure also yields `null` instead of throwing —
so a message whose compressed text is corrupted is still listed, with a null
text value (the key is assigned), unlike a corrupted image, whose decode
failure omits the image field and its mime type from the response. -/
theorem c10_decompress_total_null (b : List Byte) (msg : StoredMessage) :
    decompressText none = none ∧
    (cborDecode b = none → decompressText (some b) = none) ∧
    (∀ d : List Byte, cborDecode b = some d → ungzip d = none →
      decompressText (some b) = none) ∧
    (msg.text = some (.buf b) → decompressText (some b) = none →
      (decodeMessage msg).text = none ∧
      (decodeMessage msg).timestamp = msg.timestamp ∧
      (decodeMessage msg).edited = msg.edited) ∧
    (∀ ib : List Byte, msg.imageData = some ib → decodeBinaryField ib = none →
      (decodeMessage msg).imageData = none ∧
      (decodeMessage msg).imageMimeType = none) := by
  refine ⟨rfl, ?_, ?_, ?_, ?_⟩
  · intro h
    simp [decompressText, h]
  · intro d h1 h2
    simp [decompressText, h1, h2]
  · intro htext hfailed
    have hbase : decodeStoredText msg.text = none := by
      rw [htext]
      exact hfailed
    refine ⟨?_, ?_, ?_⟩ <;>
      cases hfd : msg.fileData <;>
      cases hid : msg.imageData <;>
      simp [decodeMessage, hfd, hid, hbase] <;>
      cases hdec : decodeBinaryField _ <;> simp [hdec, hbase]
  · intro ib h1 h2
    exact ⟨(decodeMessage_corrupt_image h1 h2).1,
      (decodeMessage_corrupt_image h1 h2).2.1⟩

/-- A stored message whose text field holds a corrupt compressed buffer,
for the C10 witness. -/
def c10Msg : StoredMessage :=
  { text := some (.buf [9])
    imageData := some [9]
    imageMimeType := some "image/png"
    fileData := none
    fileName := none
    fileMimeType := none
    fileSize := none
    timestamp := 3
    edited := false
    editedAt := none }

/-- Witness for C10 on a concrete corrupt buffer `[9]` (not a CBOR envelope):
decompression yields `null`, the message is still listed with a null text
value, and the same corrupt bytes in the image field are omitted instead. -/
theorem c10_decompress_total_null_witness :
    decompressText (some [9]) = none ∧
    (decodeMessage c10Msg).text = none ∧
    (decodeMessage c10Msg).timestamp = 3 ∧
    (decodeMessage c10Msg).imageData = none := by
  have h := c10_decompress_total_null [9] c10Msg
  refine ⟨h.2.1 (by decide), (h.2.2.2.1 (by decide) (h.2.1 (by decide))).1, ?_, ?_⟩
  · exact (h.2.2.2.1 (by decide) (h.2.1 (by decide))).2.1.trans (by decide)
  · exact (h.2.2.2.2 [9] (by decide) (by decide)).1

end ShareChat
